import Mathlib

/-!
Verification development for the Trader repository: a shallow embedding of
the market-state cache service (`zmq_msg.py`, class `Server`) and of the
trading worker state machine (`trader.py`, class `Trader`), together with
theorems settling the behavioural claims about them.

Conventions of the embedding:
* Python dicts holding orders and prices become association lists keyed by
  strings; dict assignment `d[k] = v` becomes `upsert`.
* Order and price records keep only the fields the modelled control flow
  reads (`id`, `status`, `legs`, price, timestamp).  Missing `legs` / empty
  `legs` are both modelled by the empty list (both are falsy in the source).
* Prices and timestamps are modelled as integers: the source never performs
  arithmetic on them in the modelled code paths, only storage and equality.
* External effects (order submission, cache reads, e-mail sending) are
  resolved by an environment record supplied to each tick; each fallible
  call site of the source has a corresponding outcome in the environment.
  Exceptions that escape a call are modelled as explicit outcomes, matching
  where the source raises.
-/

/-- Association-list update modelling Python dict assignment `d[k] = v`:
replaces the binding of `k` if present, otherwise appends it. -/
def upsert {α : Type} (k : String) (v : α) : List (String × α) → List (String × α)
  | [] => [(k, v)]
  | (k', v') :: rest => if k' = k then (k, v) :: rest else (k', v') :: upsert k v rest

/-- Status of an order leg, as cached (a leg is itself an order dict in the
source; only its `status` field is ever read, in `Trader.oco_filled`). -/
structure Leg where
  status : String
  deriving DecidableEq, Repr

/-- The order record kept by the cache and read by the worker.  Mirrors the
fields of the order dicts that `trader.py` reads: `id`, `status` and `legs`
(`legs := []` models both a missing and an empty/None `legs` entry, which
the source treats identically via the falsy check `not order.get('legs')`). -/
structure OrderRec where
  id : String
  status : String
  legs : List Leg := []
  deriving DecidableEq, Repr

/-- A cached price entry: `zmq_msg.Server` stores
`{'price': price, 'timestamp': timestamp}` per symbol. -/
structure PriceEntry where
  price : Int
  timestamp : Int
  deriving DecidableEq, Repr

/-- The in-memory state of the cache server (`zmq_msg.Server.__init__`):
a last-updated stamp, the per-id order map and the per-symbol price map.
The `read` action returns exactly this data, so the same type also serves
as the snapshot delivered to readers. -/
structure CacheState where
  last_updated : Int
  orders : List (String × OrderRec)
  prices : List (String × PriceEntry)
  deriving DecidableEq, Repr

/-- A request message accepted by the cache server's loop
(`zmq_msg.Server.run`): a read, an order write, or a price write. -/
inductive CacheMsg
  | read
  | writeOrder (o : OrderRec)
  | writePrice (symbol : String) (price : Int) (timestamp : Int)
  deriving DecidableEq, Repr

/-- The reply sent for one request: the full snapshot for a read,
an acknowledgment for a write. -/
inductive CacheReply
  | snapshot (s : CacheState)
  | ack
  deriving DecidableEq, Repr

/-- One iteration of `zmq_msg.Server.run`: receive a message, update the
state, send the reply.  `now` is the value `time.time()` would give for
this iteration; it is stored in `last_updated` on writes only. -/
def serverStep (now : Int) (s : CacheState) (m : CacheMsg) : CacheState × CacheReply :=
  match m with
  | .read => (s, .snapshot s)
  | .writeOrder o =>
      ({ last_updated := now, orders := upsert o.id o s.orders, prices := s.prices }, .ack)
  | .writePrice symbol price timestamp =>
      ({ last_updated := now, orders := s.orders,
         prices := upsert symbol ⟨price, timestamp⟩ s.prices }, .ack)

/-- Trader's `get_order` in its streaming variant: look the id up in the
cached orders map; an order the cache has never seen is reported with
status `new` (`trader.py` lines 230-238). -/
def get_order_streaming (cache : CacheState) (order_id : String) : OrderRec :=
  match cache.orders.lookup order_id with
  | none => { id := order_id, status := "new" }
  | some o => o

/-- Trader's `oco_filled`: for an order with legs, the `take_profit` check
reads the parent order's own status and the `stop_loss` check reads the
first leg's status; an order without legs is never OCO-filled. -/
def oco_filled (order : OrderRec) (leg : String) : Bool :=
  match order.legs with
  | [] => false
  | l0 :: _ =>
      if leg = "take_profit" then order.status = "filled"
      else if leg = "stop_loss" then l0.status = "filled"
      else false

/-- An order side.  The source represents sides as the strings `'buy'` and
`'sell'`; every code path modelled here reaches a `NameError` before doing
anything observable when the side is any other string, so the two-valued
type is faithful. -/
inductive Side
  | buy
  | sell
  deriving DecidableEq, Repr

/-- The side map `{'buy': 'sell', 'sell': 'buy'}` installed in
`self.state['side_map']` and used for order side switching. -/
def Side.flip : Side → Side
  | .buy => .sell
  | .sell => .buy

/-- The shape of Trader's `self.state` dict.  `empty` is the initial `{}`;
`sideMapOnly` is the dict holding only the `side_map` key (reachable when
the first tick raises after line 342 of `trader.py` but before line 398);
`ready` holds `last_order_id` and `next_order_side` (the constant
`side_map` key is represented by `Side.flip`). -/
inductive WState
  | empty
  | sideMapOnly
  | ready (last_order_id : String) (next_order_side : Side)
  deriving DecidableEq, Repr

/-- The mutable per-worker data the modelled control flow reads and writes:
the `state` dict and the `self.retry_order_creation` counter. -/
structure TraderState where
  w : WState
  retry_order_creation : Nat
  deriving DecidableEq, Repr

/-- The externally observable actions of a tick that the claims talk
about: a call of `submit_order` (tagged with the side of the submitted
order), a call of `cancel_symbol_orders`, a call of
`_send_termination_alert`, and the error-backoff sleep of `run_forever`. -/
inductive Event
  | submit (side : Side)
  | cancelSymbolOrders
  | termAlert
  | sleepAfterError
  deriving DecidableEq, Repr

/-- Outcome of one `submit_order` call in the initial branch of `_loop`:
the call raised an exception that is not an `APIError` (escapes), the call
hit an `APIError` and returned `None`, or it returned an order. -/
inductive SubmitResult
  | raised
  | failed
  | ok (o : OrderRec)
  deriving Repr

/-- Outcome of one iteration of a loop-order retry `while` in `_loop`
(lines 464-476 and 492-504): the submit call raised, the submit call
returned `None` (`APIError`), the submit succeeded but the follow-up
`get_order` raised, or the submit succeeded and `get_order` returned `o`. -/
inductive AttemptOutcome
  | submitRaise
  | submitNone
  | fetchRaise (o : OrderRec)
  | fetched (o : OrderRec)
  deriving Repr

/-- The exit data of one retry `while` loop: how many `submit_order` calls
were made, the value of `self.retry_order_creation` afterwards, whether an
exception escaped mid-loop, and the binding of the Python local `order`
afterwards (`none` meaning the variable is still unbound, so that reading
it raises `NameError`; `some none` meaning it is bound to `None`). -/
structure RetryExit where
  attempts : Nat
  retry_left : Nat
  raised : Bool
  ord : Option (Option OrderRec)
  deriving Repr

/-- The retry `while` loop of `_loop` (lines 464-476, and 492-504 for the
jump round): while the retry counter is positive, submit; on a fetched
status other than `rejected` reset the counter to the configured value and
break; otherwise decrement and continue.  `budget` is the counter on
entry, `i` indexes the attempt outcomes, `last` is the current binding of
the local `order`. -/
def runRetryLoop (reset : Nat) (att : Nat → AttemptOutcome) :
    Nat → Nat → Option (Option OrderRec) → RetryExit
  | 0, i, last => { attempts := i, retry_left := 0, raised := false, ord := last }
  | b + 1, i, last =>
      match att i with
      | .submitRaise =>
          { attempts := i + 1, retry_left := b + 1, raised := true, ord := last }
      | .submitNone => runRetryLoop reset att b (i + 1) (some none)
      | .fetchRaise o =>
          { attempts := i + 1, retry_left := b + 1, raised := true, ord := some (some o) }
      | .fetched o =>
          if o.status = "rejected" then runRetryLoop reset att b (i + 1) (some (some o))
          else { attempts := i + 1, retry_left := reset, raised := false, ord := some (some o) }

/-- Static configuration read by the modelled code: `config.py`'s
`retry_order_creation` (the other config values only set sleep durations
and logging). -/
structure Config where
  retry_order_creation : Nat
  deriving Repr

/-- The strategy attributes the modelled control flow branches on.  The
price and quantity attributes only shape the submitted order parameters
and never influence control flow or the modelled events, so they are
represented by the single configured `initial_trade_price` (the "signal
price" of the spec) needed to state the trigger claim. -/
structure Strategy where
  symbol : String
  initial_order_side : Side
  initial_trade_price : Int
  enable_email_monitoring : Bool
  deriving Repr

/-- The resolution of every external call a single `_loop` tick can make,
together with the cooperative shutdown flag checked by `_signals`.
`cacheReadFails` is the zmq `read` backing `get_order(last_order_id)`;
`statusEmailFails` is `_send_status_email`; `alertFails` is
`_send_termination_alert` when it is actually called with e-mail
monitoring enabled; `att`/`jumpAtt` resolve the nominal and jump retry
rounds. -/
structure TickEnv where
  shutdown : Bool := false
  cacheReadFails : Bool := false
  statusEmailFails : Bool := false
  alertFails : Bool := false
  initialSubmit : SubmitResult := .failed
  att : Nat → AttemptOutcome := fun _ => .submitNone
  jumpAtt : Nat → AttemptOutcome := fun _ => .submitNone

/-- How one call of `_loop` ends: a normal return, an exception that the
bare `except` of `run_forever` treats as transient, an
`OrderRejectedError`, or `SystemExit` raised by `_terminate`.  The carried
state is `self.state`/`self.retry_order_creation` as mutated so far; the
event list records the calls made during the tick. -/
inductive TickResult
  | ok (st : TraderState) (evs : List Event)
  | transient (st : TraderState) (evs : List Event)
  | orderRejectedErr (st : TraderState) (evs : List Event)
  | terminated (evs : List Event)
  deriving DecidableEq, Repr

/-- The events recorded by a tick, whatever its outcome. -/
def TickResult.events : TickResult → List Event
  | .ok _ evs => evs
  | .transient _ evs => evs
  | .orderRejectedErr _ evs => evs
  | .terminated evs => evs

/-- The `submit_order` calls made by the retry loop, one event per call. -/
def submitEvents (side : Side) (n : Nat) : List Event :=
  List.replicate n (.submit side)

/-- The code after the jump-round `while` loop of `_loop` (lines 507-518),
given the exit data `r2` of that loop and the events `evs2` so far: the
final `if not order:` check — which terminates, alerting only with e-mail
monitoring enabled, exactly when the local `order` is bound to `None` —
followed by the bookkeeping of lines 517-518, which records whatever order
is bound (rejected or not) and flips the side. -/
def loopJumpCont (strat : Strategy) (alertFails : Bool) (lastId : String) (side : Side)
    (evs2 : List Event) (r2 : RetryExit) : TickResult :=
  if r2.raised then .transient ⟨.ready lastId side, r2.retry_left⟩ evs2
  else
    match r2.ord with
    | none => .transient ⟨.ready lastId side, r2.retry_left⟩ evs2
    | some none =>
        if strat.enable_email_monitoring then
          if alertFails then .transient ⟨.ready lastId side, r2.retry_left⟩ evs2
          else .terminated (evs2 ++ [.termAlert, .cancelSymbolOrders])
        else .terminated (evs2 ++ [.cancelSymbolOrders])
    | some (some o2) => .ok ⟨.ready o2.id side.flip, r2.retry_left⟩ evs2

/-- The jump round of the loop-order branch (lines 480-504): reset the
retry counter to the configured value, switch the order parameters to the
jump prices, and run the retry `while` loop again, starting from the
current binding `o1` of the local `order`. -/
def loopJumpPhase (cfg : Config) (strat : Strategy) (env : TickEnv)
    (lastId : String) (side : Side) (evs1 : List Event)
    (o1 : Option OrderRec) : TickResult :=
  loopJumpCont strat env.alertFails lastId side
    (evs1 ++ submitEvents side
      (runRetryLoop cfg.retry_order_creation env.jumpAtt
        cfg.retry_order_creation 0 (some o1)).attempts)
    (runRetryLoop cfg.retry_order_creation env.jumpAtt
      cfg.retry_order_creation 0 (some o1))

/-- The code after the nominal retry `while` loop of the loop-order branch
(line 479 onward), given the exit data `r1` of that loop: a mid-loop
exception propagates; an unbound `order` (loop never entered) raises
`NameError` at line 479; a `None` or `rejected` binding enters the jump
round; any other binding is recorded with the side flipped (lines
517-518). -/
def loopFillCont (cfg : Config) (strat : Strategy) (env : TickEnv)
    (lastId : String) (side : Side) (r1 : RetryExit) : TickResult :=
  if r1.raised then
    .transient ⟨.ready lastId side, r1.retry_left⟩ (submitEvents side r1.attempts)
  else
    match r1.ord with
    | none =>
        .transient ⟨.ready lastId side, r1.retry_left⟩ (submitEvents side r1.attempts)
    | some none =>
        loopJumpPhase cfg strat env lastId side (submitEvents side r1.attempts) none
    | some (some o1) =>
        if o1.status = "rejected" then
          loopJumpPhase cfg strat env lastId side (submitEvents side r1.attempts) (some o1)
        else .ok ⟨.ready o1.id side.flip, r1.retry_left⟩ (submitEvents side r1.attempts)

/-- The loop-order branch of `_loop` taken when the last order is reported
filled (lines 418-518): pick the loop prices (pure), run the nominal retry
round with the current retry counter, then continue at line 479. -/
def loopFillPhase (cfg : Config) (strat : Strategy) (env : TickEnv)
    (lastId : String) (side : Side) (retry : Nat) : TickResult :=
  loopFillCont cfg strat env lastId side
    (runRetryLoop cfg.retry_order_creation env.att retry 0 none)

/-- The condition of line 417 of `trader.py`: the cached record of the
tracked order reports a fill, either directly or through a filled
stop-loss leg. -/
def fill_observed (cache : CacheState) (lastId : String) : Bool :=
  (get_order_streaming cache lastId).status = "filled" ||
    oco_filled (get_order_streaming cache lastId) "stop_loss"

/-- The update branch of `_loop` (lines 401-518), for a fully initialised
state: fetch the cached record of the last order, run the status e-mail,
terminate on a take-profit-filled bracket (line 413 calls
`_send_termination_alert` unconditionally, so with monitoring disabled
`self.email_sender` does not exist and the call raises `AttributeError`,
making the tick transient), place the next order on a fill or a
stop-loss-leg fill, and otherwise do nothing. -/
def loopReadyTick (cfg : Config) (strat : Strategy) (env : TickEnv)
    (cache : CacheState) (lastId : String) (side : Side) (retry : Nat) : TickResult :=
  if env.cacheReadFails then .transient ⟨.ready lastId side, retry⟩ []
  else if strat.enable_email_monitoring && env.statusEmailFails then
    .transient ⟨.ready lastId side, retry⟩ []
  else if oco_filled (get_order_streaming cache lastId) "take_profit" then
    if !strat.enable_email_monitoring then .transient ⟨.ready lastId side, retry⟩ []
    else if env.alertFails then .transient ⟨.ready lastId side, retry⟩ []
    else .terminated [.termAlert, .cancelSymbolOrders]
  else if fill_observed cache lastId then
    loopFillPhase cfg strat env lastId side retry
  else .ok ⟨.ready lastId side, retry⟩ []

/-- One call of `Trader._loop`.  The three `WState` shapes select the
branches the source selects by the truthiness and keys of `self.state`:
the initial branch (lines 340-399), the `KeyError` a partially
initialised dict produces at line 404, and the update branch
(lines 401-518). -/
def loopTick (cfg : Config) (strat : Strategy) (env : TickEnv)
    (cache : CacheState) (st : TraderState) : TickResult :=
  match st.w with
  | .empty =>
      -- `self.state['side_map'] = ...`, then price selection (pure), then
      -- the initial `submit_order` whose failure raises OrderRejectedError.
      match env.initialSubmit with
      | .raised =>
          .transient ⟨.sideMapOnly, st.retry_order_creation⟩
            [.submit strat.initial_order_side]
      | .failed =>
          .orderRejectedErr ⟨.sideMapOnly, st.retry_order_creation⟩
            [.submit strat.initial_order_side]
      | .ok o =>
          .ok ⟨.ready o.id strat.initial_order_side.flip, cfg.retry_order_creation⟩
            [.submit strat.initial_order_side]
  | .sideMapOnly =>
      -- state is truthy but has no 'last_order_id' key: KeyError, transient.
      .transient st []
  | .ready lastId side =>
      loopReadyTick cfg strat env cache lastId side st.retry_order_creation

/-- Whether the worker is still running after a bounded trace. -/
inductive RunResult
  | terminated
  | running (st : TraderState)
  deriving DecidableEq, Repr

/-- `Trader.run_forever` over a finite list of tick environments: check the
shutdown flag (`_signals`), run `_loop`, and dispatch on its outcome the
way the `try`/`except` ladder of lines 165-196 does — transient errors
sleep and continue, `OrderRejectedError` decrements the retry budget and
clears `self.state` while budget remains and otherwise terminates (alert
only with monitoring enabled, then `_terminate`), and `SystemExit`
propagates. -/
def runSteps (cfg : Config) (strat : Strategy) :
    List (TickEnv × CacheState) → TraderState → RunResult × List Event
  | [], st => (.running st, [])
  | (env, cache) :: rest, st =>
      if env.shutdown then (.terminated, [.cancelSymbolOrders])
      else
        match loopTick cfg strat env cache st with
        | .ok st' evs =>
            let r := runSteps cfg strat rest st'
            (r.1, evs ++ r.2)
        | .transient st' evs =>
            let r := runSteps cfg strat rest st'
            (r.1, evs ++ .sleepAfterError :: r.2)
        | .orderRejectedErr st' evs =>
            if st'.retry_order_creation > 0 then
              let r := runSteps cfg strat rest ⟨.empty, st'.retry_order_creation - 1⟩
              (r.1, evs ++ .sleepAfterError :: r.2)
            else
              (.terminated,
                evs ++ if strat.enable_email_monitoring
                  then [.termAlert, .cancelSymbolOrders]
                  else [.cancelSymbolOrders])
        | .terminated evs => (.terminated, evs)

/-- The sides of the submitted orders in a trace, in order. -/
def submittedSides (evs : List Event) : List Side :=
  evs.filterMap fun e =>
    match e with
    | .submit s => some s
    | _ => none

/-! Concrete fixtures used by the closed theorems and witnesses. -/

/-- The configuration of the retry-exhaustion scenario: `retry_order_creation = 2`. -/
def cfg2 : Config := ⟨2⟩

/-- A buy-first strategy with signal/trade price 100 and e-mail monitoring off. -/
def stratBuy100 : Strategy :=
  { symbol := "AAPL", initial_order_side := .buy, initial_trade_price := 100,
    enable_email_monitoring := false }

/-- The same buy-first strategy with e-mail monitoring on. -/
def stratBuyMon : Strategy :=
  { symbol := "AAPL", initial_order_side := .buy, initial_trade_price := 100,
    enable_email_monitoring := true }

/-- An empty cache snapshot. -/
def cache0 : CacheState := ⟨0, [], []⟩

/-- A cache snapshot whose only content is the price tick 105 for AAPL. -/
def cacheP105 : CacheState := ⟨0, [], [("AAPL", ⟨105, 1⟩)]⟩

/-- A cache snapshot holding a plain filled order with id `x`. -/
def cacheFilledX : CacheState := ⟨0, [("x", ⟨"x", "filled", []⟩)], []⟩

/-- A cache snapshot holding a plain rejected order with id `x`. -/
def cacheRejX : CacheState := ⟨0, [("x", ⟨"x", "rejected", []⟩)], []⟩

/-- A bracket order whose parent (take-profit) status is `filled`. -/
def ocoTPOrder : OrderRec := ⟨"b1", "filled", [⟨"canceled"⟩]⟩

/-- A cache snapshot holding the take-profit-filled bracket order `b1`. -/
def cacheOcoTP : CacheState := ⟨0, [("b1", ocoTPOrder)], []⟩

/-- A bracket order whose stop-loss leg is `filled` and whose parent is not. -/
def ocoSLOrder : OrderRec := ⟨"b2", "canceled", [⟨"filled"⟩]⟩

/-- A cache snapshot holding the stop-loss-filled bracket order `b2`. -/
def cacheOcoSL : CacheState := ⟨0, [("b2", ocoSLOrder)], []⟩

/-- The do-nothing environment: no shutdown, no transport failures, and
every `submit_order` call hits an `APIError` (returns `None`). -/
def envDefault : TickEnv := {}

/-- An environment where the initial order submission returns an order. -/
def envInitOk : TickEnv := { initialSubmit := .ok ⟨"o1", "new", []⟩ }

/-- An environment where the initial order submission raises an exception
that is not an `APIError`. -/
def envInitRaise : TickEnv := { initialSubmit := .raised }

/-- An environment where the zmq read behind `get_order` raises. -/
def envReadFail : TickEnv := { cacheReadFails := true }

/-- An environment where every loop-order submission succeeds and the
fetched status of the new order `nid` is `accepted`. -/
def envFill (nid : String) : TickEnv :=
  { att := fun _ => .fetched ⟨nid, "accepted", []⟩ }

/-- An environment where every nominal-round submission comes back with
fetched status `rejected` and so does every jump-round submission. -/
def envAllRejected : TickEnv :=
  { att := fun _ => .fetched ⟨"rej-nominal", "rejected", []⟩,
    jumpAtt := fun _ => .fetched ⟨"rej-jump", "rejected", []⟩ }

/-- A cache snapshot in which the single order `oid` is `filled`. -/
def filledCache (oid : String) : CacheState := ⟨0, [(oid, ⟨oid, "filled", []⟩)], []⟩

/-- Five ticks driving five successive fills from a buy-first start: the
initial submission succeeds, and on each later tick the previous order is
cached as `filled` and the next submission is accepted. -/
def run5 : List (TickEnv × CacheState) :=
  [(envInitOk, cache0),
   (envFill "o2", filledCache "o1"),
   (envFill "o3", filledCache "o2"),
   (envFill "o4", filledCache "o3"),
   (envFill "o5", filledCache "o4")]

/-- Five ticks on which every initial submission fails with `APIError`. -/
def run6 : List (TickEnv × CacheState) := List.replicate 5 (envDefault, cache0)

theorem lookup_upsert {α : Type} (k : String) (v : α) (l : List (String × α)) :
    (upsert k v l).lookup k = some v := by
  induction l with
  | nil => simp [upsert, List.lookup]
  | cons hd tl ih =>
      obtain ⟨k', v'⟩ := hd
      by_cases h : k' = k
      · simp [upsert, h, List.lookup]
      · have h' : (k == k') = false := by
          simp [beq_iff_eq]
          exact fun hk => h hk.symm
        simp [upsert, h, List.lookup, h', ih]

/-- Helper: the take-profit check of `oco_filled` is false whenever the
order's own status is not `filled`, whatever its legs are. -/
theorem oco_filled_tp_false (o : OrderRec) (h : o.status ≠ "filled") :
    oco_filled o "take_profit" = false := by
  cases hl : o.legs with
  | nil => simp [oco_filled, hl]
  | cons l0 tl => simp [oco_filled, hl, h]

/-- C9: reading the cache is idempotent and effect-free — processing a
read leaves the server state unchanged, and a second read processed after
it (at any later time) yields the same snapshot reply. -/
theorem cache_read_idempotent (s : CacheState) (t1 t2 : Int) :
    (serverStep t1 s .read).1 = s ∧
    (serverStep t2 (serverStep t1 s .read).1 .read).2 = (serverStep t1 s .read).2 :=
  ⟨rfl, rfl⟩

/-- C2 counterexample: the claim that a price write with an older
timestamp leaves the cached entry unchanged is false — with AAPL cached at
price 100, timestamp 10, a write with price 99 and the older timestamp 5
replaces the entry. -/
theorem price_write_older_timestamp_overwrites :
    (5 : Int) < 10 ∧
    ((serverStep 20 ⟨0, [], [("AAPL", ⟨100, 10⟩)]⟩ (.writePrice "AAPL" 99 5)).1).prices.lookup
        "AAPL" = some ⟨99, 5⟩ ∧
    ((serverStep 20 ⟨0, [], [("AAPL", ⟨100, 10⟩)]⟩ (.writePrice "AAPL" 99 5)).1).prices.lookup
        "AAPL" ≠ (⟨0, [], [("AAPL", ⟨100, 10⟩)]⟩ : CacheState).prices.lookup "AAPL" := by
  decide

/-- C2 amended: the cache's price entries are last-write-wins, not
monotonic — processing a price write always replaces the symbol's cached
entry with the new price and timestamp, whether the new timestamp is older
or newer than the cached one. -/
theorem price_write_last_write_wins (now : Int) (s : CacheState) (sym : String)
    (p t : Int) :
    ((serverStep now s (.writePrice sym p t)).1).prices.lookup sym = some ⟨p, t⟩ := by
  simp [serverStep, lookup_upsert]

/-- C10: fetching an order id absent from the cache snapshot's orders map
through the streaming path returns the record with status `new` and the
requested id instead of failing. -/
theorem get_order_missing_is_new (cache : CacheState) (oid : String)
    (h : cache.orders.lookup oid = none) :
    get_order_streaming cache oid = { id := oid, status := "new", legs := [] } := by
  simp [get_order_streaming, h]

/-- C10 witness: the empty cache knows no order `abc`, and fetching it
yields the status-`new` record. -/
theorem get_order_missing_is_new_witness :
    get_order_streaming ⟨0, [], []⟩ "abc" = { id := "abc", status := "new", legs := [] } :=
  get_order_missing_is_new ⟨0, [], []⟩ "abc" rfl

/-- C1 counterexample: the claim that no order is submitted while the
latest cached price (105) is strictly greater than the configured signal
price (100) is false — on its very first tick the worker submits the
initial buy order although the cached AAPL price is 105. -/
theorem submission_despite_price_above_signal :
    (cacheP105.prices.lookup "AAPL" = some ⟨105, 1⟩) ∧
    stratBuy100.initial_trade_price < 105 ∧
    Event.submit .buy ∈ (loopTick cfg2 stratBuy100 envInitOk cacheP105 ⟨.empty, 2⟩).events := by
  decide

/-- C1 amended: the worker never consults cached prices at all — the
result of the first tick is identical for any two cache snapshots, and the
first tick always makes the initial submission (on the configured side)
regardless of any price, the trigger price being embodied in the submitted
order's limit/stop prices instead. -/
theorem initial_tick_ignores_prices (cfg : Config) (strat : Strategy) (env : TickEnv)
    (r : Nat) (c c' : CacheState) :
    loopTick cfg strat env c ⟨.empty, r⟩ = loopTick cfg strat env c' ⟨.empty, r⟩ ∧
    Event.submit strat.initial_order_side ∈ (loopTick cfg strat env c ⟨.empty, r⟩).events := by
  constructor
  · rfl
  · cases h : env.initialSubmit <;> simp [loopTick, TickResult.events, h]

/-- C3: on a loop-phase fill tick with retry budget 2, when every nominal
and jump submission comes back with fetched status `rejected`, the worker
does not terminate: it records the rejected jump order as its last order,
flips the pending side, keeps a zeroed retry counter and continues (first
conjunct) — termination, with its single cancel call, happens only when
the final submit call itself returned `None` (third conjunct, where every
submission hits an `APIError`). -/
theorem loop_rejection_escalation_behavior :
    loopTick cfg2 stratBuy100 envAllRejected cacheFilledX ⟨.ready "x" .buy, 2⟩ =
      .ok ⟨.ready "rej-jump" .sell, 0⟩
        [.submit .buy, .submit .buy, .submit .buy, .submit .buy] ∧
    Event.cancelSymbolOrders ∉
      (loopTick cfg2 stratBuy100 envAllRejected cacheFilledX ⟨.ready "x" .buy, 2⟩).events ∧
    loopTick cfg2 stratBuy100 envDefault cacheFilledX ⟨.ready "x" .buy, 2⟩ =
      .terminated
        [.submit .buy, .submit .buy, .submit .buy, .submit .buy, .cancelSymbolOrders] := by
  decide

/-- C6: with `retry_order_creation = 2` and every initial submission
rejected, the worker makes exactly 3 submission attempts (the initial one
plus 2 retries), then enters its termination sequence, during which the
cancel-all-orders-for-the-symbol operation runs exactly once. -/
theorem retry_exhaustion_three_attempts :
    (runSteps cfg2 stratBuy100 run6 ⟨.empty, 2⟩).1 = .terminated ∧
    (runSteps cfg2 stratBuy100 run6 ⟨.empty, 2⟩).2.count (.submit .buy) = 3 ∧
    (runSteps cfg2 stratBuy100 run6 ⟨.empty, 2⟩).2.count .cancelSymbolOrders = 1 := by
  decide

/-- C4 counterexample: the claim that a tick seeing its tracked order
cached as `rejected` cancels the other resting orders for the symbol is
false — at this concrete input the tick returns normally with the worker
record unchanged and performs no cancel call at all. -/
theorem rejected_order_tick_cancels_nothing :
    loopTick cfg2 stratBuy100 envDefault cacheRejX ⟨.ready "x" .buy, 2⟩ =
      .ok ⟨.ready "x" .buy, 2⟩ [] ∧
    Event.cancelSymbolOrders ∉
      (loopTick cfg2 stratBuy100 envDefault cacheRejX ⟨.ready "x" .buy, 2⟩).events := by
  decide

/-- C4 amended: whenever the tracked last order is cached with status
`rejected` or `canceled` (and its stop-loss leg, if any, is not filled),
the tick performs no action at all: no cancellation of other resting
orders, no submission, no side flip — the worker keeps its record
unchanged and goes on polling the same order id. -/
theorem rejected_order_tick_is_noop (cfg : Config) (strat : Strategy) (env : TickEnv)
    (cache : CacheState) (lastId : String) (side : Side) (retry : Nat)
    (hread : env.cacheReadFails = false)
    (hmail : (strat.enable_email_monitoring && env.statusEmailFails) = false)
    (hstat : (get_order_streaming cache lastId).status = "rejected" ∨
      (get_order_streaming cache lastId).status = "canceled")
    (hsl : oco_filled (get_order_streaming cache lastId) "stop_loss" = false) :
    loopTick cfg strat env cache ⟨.ready lastId side, retry⟩ =
      .ok ⟨.ready lastId side, retry⟩ [] := by
  have hne : (get_order_streaming cache lastId).status ≠ "filled" := by
    rcases hstat with h | h <;> simp [h]
  have htp := oco_filled_tp_false (get_order_streaming cache lastId) hne
  simp [loopTick, loopReadyTick, fill_observed, hread, hmail, htp, hsl, hne]

/-- C4 witness: a concrete rejected cached order, on which the tick is a
no-op with no cancel. -/
theorem rejected_order_tick_is_noop_witness :
    loopTick cfg2 stratBuy100 envDefault cacheRejX ⟨.ready "x" .buy, 2⟩ =
      .ok ⟨.ready "x" .buy, 2⟩ [] :=
  rejected_order_tick_is_noop cfg2 stratBuy100 envDefault cacheRejX "x" .buy 2
    rfl rfl (Or.inl rfl) rfl

/-- Helper: `loopJumpCont` keeps the worker record on every transient exit. -/
theorem loopJumpCont_transient (strat : Strategy) (alertFails : Bool)
    (lastId : String) (side : Side) (evs2 : List Event) (r2 : RetryExit)
    (st' : TraderState) (evs : List Event)
    (h : loopJumpCont strat alertFails lastId side evs2 r2 = .transient st' evs) :
    st'.w = .ready lastId side := by
  unfold loopJumpCont at h
  repeat' split at h
  all_goals first
    | (injection h with h1 h2; subst h1; rfl)
    | simp at h

/-- Helper: `loopJumpPhase` keeps the worker record on every transient exit. -/
theorem loopJumpPhase_transient (cfg : Config) (strat : Strategy) (env : TickEnv)
    (lastId : String) (side : Side) (evs1 : List Event) (o1 : Option OrderRec)
    (st' : TraderState) (evs : List Event)
    (h : loopJumpPhase cfg strat env lastId side evs1 o1 = .transient st' evs) :
    st'.w = .ready lastId side :=
  loopJumpCont_transient _ _ _ _ _ _ _ _ h

/-- Helper: `loopFillCont` keeps the worker record on every transient exit. -/
theorem loopFillCont_transient (cfg : Config) (strat : Strategy) (env : TickEnv)
    (lastId : String) (side : Side) (r1 : RetryExit)
    (st' : TraderState) (evs : List Event)
    (h : loopFillCont cfg strat env lastId side r1 = .transient st' evs) :
    st'.w = .ready lastId side := by
  unfold loopFillCont at h
  repeat' split at h
  all_goals first
    | (injection h with h1 h2; subst h1; rfl)
    | (exact loopJumpPhase_transient _ _ _ _ _ _ _ _ _ h)
    | simp at h

/-- Helper: `loopReadyTick` keeps the worker record on every transient exit. -/
theorem loopReadyTick_transient (cfg : Config) (strat : Strategy) (env : TickEnv)
    (cache : CacheState) (lastId : String) (side : Side) (retry : Nat)
    (st' : TraderState) (evs : List Event)
    (h : loopReadyTick cfg strat env cache lastId side retry = .transient st' evs) :
    st'.w = .ready lastId side := by
  unfold loopReadyTick at h
  repeat' split at h
  all_goals first
    | (injection h with h1 h2; subst h1; rfl)
    | (exact loopFillCont_transient _ _ _ _ _ _ _ _ h)
    | simp at h

/-- C8 counterexample: the claim that every transient tick leaves the
state record exactly as it was is false on the very first tick — when the
initial submission raises a transient exception, the side map has already
been installed, so the state record changes from the empty dict to a
partially initialised one. -/
theorem transient_first_tick_mutates_state :
    loopTick cfg2 stratBuy100 envInitRaise cache0 ⟨.empty, 2⟩ =
      .transient ⟨.sideMapOnly, 2⟩ [.submit .buy] ∧
    WState.sideMapOnly ≠ WState.empty := by
  decide

/-- C8 amended: after the worker is fully initialised (its state record
holds a last order id and pending side), every transient exception inside
a tick is caught at the tick boundary leaving the state record unchanged,
and the run sleeps the error backoff and goes on to the next tick; only on
the first tick can a transient exception leave a partially initialised
record (side map installed, no last order id). -/
theorem transient_tick_preserves_state (cfg : Config) (strat : Strategy) (env : TickEnv)
    (cache : CacheState) (lastId : String) (side : Side) (retry : Nat)
    (st' : TraderState) (evs : List Event) (rest : List (TickEnv × CacheState))
    (hsh : env.shutdown = false)
    (h : loopTick cfg strat env cache ⟨.ready lastId side, retry⟩ = .transient st' evs) :
    st'.w = .ready lastId side ∧
    runSteps cfg strat ((env, cache) :: rest) ⟨.ready lastId side, retry⟩ =
      ((runSteps cfg strat rest st').1,
        evs ++ .sleepAfterError :: (runSteps cfg strat rest st').2) := by
  refine ⟨?_, ?_⟩
  · exact loopReadyTick_transient cfg strat env cache lastId side retry st' evs h
  · simp [runSteps, hsh, h]

/-- C8 witness: a concrete post-initialisation tick whose cache read
raises is transient, keeps the state record, and the run sleeps and
continues. -/
theorem transient_tick_preserves_state_witness :
    (⟨WState.ready "x" .buy, 2⟩ : TraderState).w = WState.ready "x" Side.buy ∧
    runSteps cfg2 stratBuy100 [(envReadFail, cache0)] ⟨.ready "x" .buy, 2⟩ =
      ((runSteps cfg2 stratBuy100 [] ⟨.ready "x" .buy, 2⟩).1,
        [] ++ .sleepAfterError :: (runSteps cfg2 stratBuy100 [] ⟨.ready "x" .buy, 2⟩).2) :=
  transient_tick_preserves_state cfg2 stratBuy100 envReadFail cache0 "x" .buy 2
    ⟨.ready "x" .buy, 2⟩ [] [] rfl rfl

/-- Helper: a normal return of `loopJumpCont` always records some new
order id with the side flipped. -/
theorem loopJumpCont_ok (strat : Strategy) (alertFails : Bool)
    (lastId : String) (side : Side) (evs2 : List Event) (r2 : RetryExit)
    (st' : TraderState) (evs : List Event)
    (h : loopJumpCont strat alertFails lastId side evs2 r2 = .ok st' evs) :
    ∃ nid r', st' = ⟨.ready nid side.flip, r'⟩ := by
  unfold loopJumpCont at h
  repeat' split at h
  all_goals first
    | (injection h with h1 h2; exact ⟨_, _, h1.symm⟩)
    | simp at h

/-- Helper: a normal return of `loopJumpPhase` always records some new
order id with the side flipped. -/
theorem loopJumpPhase_ok (cfg : Config) (strat : Strategy) (env : TickEnv)
    (lastId : String) (side : Side) (evs1 : List Event) (o1 : Option OrderRec)
    (st' : TraderState) (evs : List Event)
    (h : loopJumpPhase cfg strat env lastId side evs1 o1 = .ok st' evs) :
    ∃ nid r', st' = ⟨.ready nid side.flip, r'⟩ :=
  loopJumpCont_ok _ _ _ _ _ _ _ _ h

/-- Helper: a normal return of `loopFillCont` always records some new
order id with the side flipped. -/
theorem loopFillCont_ok (cfg : Config) (strat : Strategy) (env : TickEnv)
    (lastId : String) (side : Side) (r1 : RetryExit)
    (st' : TraderState) (evs : List Event)
    (h : loopFillCont cfg strat env lastId side r1 = .ok st' evs) :
    ∃ nid r', st' = ⟨.ready nid side.flip, r'⟩ := by
  unfold loopFillCont at h
  repeat' split at h
  all_goals first
    | (injection h with h1 h2; exact ⟨_, _, h1.symm⟩)
    | (exact loopJumpPhase_ok _ _ _ _ _ _ _ _ _ h)
    | simp at h

/-- Helper: a normal return of `loopFillPhase` always records some new
order id with the side flipped. -/
theorem loopFillPhase_ok (cfg : Config) (strat : Strategy) (env : TickEnv)
    (lastId : String) (side : Side) (retry : Nat)
    (st' : TraderState) (evs : List Event)
    (h : loopFillPhase cfg strat env lastId side retry = .ok st' evs) :
    ∃ nid r', st' = ⟨.ready nid side.flip, r'⟩ :=
  loopFillCont_ok _ _ _ _ _ _ _ _ h

/-- Helper: a normal return of `loopReadyTick` on a fill-reporting tick
records some new order with the side flipped. -/
theorem loopReadyTick_ok_fill (cfg : Config) (strat : Strategy) (env : TickEnv)
    (cache : CacheState) (lastId : String) (side : Side) (retry : Nat)
    (st' : TraderState) (evs : List Event)
    (h : loopReadyTick cfg strat env cache lastId side retry = .ok st' evs) :
    fill_observed cache lastId = true → ∃ nid r', st' = ⟨.ready nid side.flip, r'⟩ := by
  unfold loopReadyTick at h
  repeat' split at h
  all_goals first
    | (exact fun _ => loopFillPhase_ok _ _ _ _ _ _ _ _ h)
    | (intro hc; simp_all)

/-- Helper: a normal return of `loopReadyTick` on a tick that reports no
fill changes nothing and performs no action. -/
theorem loopReadyTick_ok_nofill (cfg : Config) (strat : Strategy) (env : TickEnv)
    (cache : CacheState) (lastId : String) (side : Side) (retry : Nat)
    (st' : TraderState) (evs : List Event)
    (h : loopReadyTick cfg strat env cache lastId side retry = .ok st' evs) :
    fill_observed cache lastId = false →
      st' = ⟨.ready lastId side, retry⟩ ∧ evs = [] := by
  unfold loopReadyTick at h
  repeat' split at h
  all_goals first
    | (injection h with h1 h2; exact fun _ => ⟨h1.symm, h2.symm⟩)
    | (intro hc; simp_all)

/-- C5: the pending side strictly alternates on fills — a tick that
returns normally flips the pending side exactly when it processed a fill
(directly or via a filled stop-loss leg) and leaves it unchanged (doing
nothing at all) otherwise, and the flip never repeats a side; a concrete
run of five successive fills from a buy-first configuration submits the
side sequence buy, sell, buy, sell, buy. -/
theorem pending_side_alternation :
    (∀ (cfg : Config) (strat : Strategy) (env : TickEnv) (cache : CacheState)
        (lastId : String) (side : Side) (retry : Nat)
        (st' : TraderState) (evs : List Event),
      loopTick cfg strat env cache ⟨.ready lastId side, retry⟩ = .ok st' evs →
        (fill_observed cache lastId = true →
          ∃ nid r', st' = ⟨.ready nid side.flip, r'⟩) ∧
        (fill_observed cache lastId = false →
          st' = ⟨.ready lastId side, retry⟩ ∧ evs = []) ∧
        side.flip ≠ side) ∧
    submittedSides (runSteps cfg2 stratBuy100 run5 ⟨.empty, 2⟩).2 =
      [.buy, .sell, .buy, .sell, .buy] := by
  constructor
  · intro cfg strat env cache lastId side retry st' evs h
    exact ⟨loopReadyTick_ok_fill cfg strat env cache lastId side retry st' evs h,
      loopReadyTick_ok_nofill cfg strat env cache lastId side retry st' evs h,
      by cases side <;> simp [Side.flip]⟩
  · decide

/-- C5 witness: a concrete fill-processing tick from pending side `buy`
flips the recorded side to `sell`. -/
theorem pending_side_alternation_witness :
    fill_observed cacheFilledX "x" = true ∧
    ∃ nid r',
      (⟨WState.ready "o2" Side.sell, 2⟩ : TraderState) = ⟨.ready nid Side.buy.flip, r'⟩ :=
  ⟨rfl,
    (pending_side_alternation.1 cfg2 stratBuy100 (envFill "o2") cacheFilledX "x" .buy 2
      ⟨.ready "o2" .sell, 2⟩ [.submit .buy] rfl).1 rfl⟩

/-- C7: termination on a take-profit-filled bracket.  First part: with
e-mail monitoring enabled and the e-mail calls returning normally, a tick
whose tracked order is a bracket with the take-profit (parent) status
`filled` terminates at once, emitting exactly the termination alert and
the single cancel call, with no submission and no side flip.  Second
part: a stop-loss-leg fill whose parent is not `filled` is processed like
a normal fill — a new order is submitted and the side flips.  Third part
(the divergence): with e-mail monitoring disabled the unconditional alert
call of line 413 raises `AttributeError`, so the tick is merely transient
— the worker never terminates on the take-profit fill. -/
theorem oco_take_profit_termination :
    (∀ (cfg : Config) (strat : Strategy) (env : TickEnv) (cache : CacheState)
        (lastId : String) (side : Side) (retry : Nat),
      strat.enable_email_monitoring = true →
      env.cacheReadFails = false →
      env.statusEmailFails = false →
      env.alertFails = false →
      oco_filled (get_order_streaming cache lastId) "take_profit" = true →
      loopTick cfg strat env cache ⟨.ready lastId side, retry⟩ =
        .terminated [.termAlert, .cancelSymbolOrders]) ∧
    (∀ (cfg : Config) (strat : Strategy) (env : TickEnv) (cache : CacheState)
        (lastId : String) (side : Side) (retry : Nat) (o' : OrderRec),
      env.cacheReadFails = false →
      (strat.enable_email_monitoring && env.statusEmailFails) = false →
      oco_filled (get_order_streaming cache lastId) "take_profit" = false →
      oco_filled (get_order_streaming cache lastId) "stop_loss" = true →
      env.att 0 = .fetched o' →
      ¬ o'.status = "rejected" →
      loopTick cfg strat env cache ⟨.ready lastId side, retry + 1⟩ =
        .ok ⟨.ready o'.id side.flip, cfg.retry_order_creation⟩ [.submit side]) ∧
    (∀ (cfg : Config) (strat : Strategy) (env : TickEnv) (cache : CacheState)
        (lastId : String) (side : Side) (retry : Nat),
      strat.enable_email_monitoring = false →
      env.cacheReadFails = false →
      oco_filled (get_order_streaming cache lastId) "take_profit" = true →
      loopTick cfg strat env cache ⟨.ready lastId side, retry⟩ =
        .transient ⟨.ready lastId side, retry⟩ []) := by
  refine ⟨?_, ?_, ?_⟩
  · intro cfg strat env cache lastId side retry hmon hread hemail halert htp
    simp [loopTick, loopReadyTick, hmon, hread, hemail, halert, htp]
  · intro cfg strat env cache lastId side retry o' hread hmail htp hsl hatt hrej
    simp [loopTick, loopReadyTick, loopFillPhase, loopFillCont, fill_observed,
      runRetryLoop, submitEvents, hread, hmail, htp, hsl, hatt, hrej]
  · intro cfg strat env cache lastId side retry hmon hread htp
    simp [loopTick, loopReadyTick, hmon, hread, htp]

/-- C7 witness: the three behaviours at concrete inputs — termination
with alert and cancel on the take-profit fill under monitoring, a normal
fill continuation on a stop-loss-leg fill, and the transient
non-termination with monitoring disabled. -/
theorem oco_take_profit_termination_witness :
    loopTick cfg2 stratBuyMon envDefault cacheOcoTP ⟨.ready "b1" .buy, 2⟩ =
      .terminated [.termAlert, .cancelSymbolOrders] ∧
    loopTick cfg2 stratBuy100 (envFill "o9") cacheOcoSL ⟨.ready "b2" .buy, 2⟩ =
      .ok ⟨.ready "o9" Side.buy.flip, cfg2.retry_order_creation⟩ [.submit .buy] ∧
    loopTick cfg2 stratBuy100 envDefault cacheOcoTP ⟨.ready "b1" .buy, 2⟩ =
      .transient ⟨.ready "b1" .buy, 2⟩ [] :=
  ⟨oco_take_profit_termination.1 cfg2 stratBuyMon envDefault cacheOcoTP "b1" .buy 2
      rfl rfl rfl rfl rfl,
    oco_take_profit_termination.2.1 cfg2 stratBuy100 (envFill "o9") cacheOcoSL "b2" .buy 1
      ⟨"o9", "accepted", []⟩ rfl rfl rfl rfl rfl (by decide),
    oco_take_profit_termination.2.2 cfg2 stratBuy100 envDefault cacheOcoTP "b1" .buy 2
      rfl rfl rfl⟩
